import Mathlib

/-!
Verification of the WaterButler Nextcloud provider
(`waterbutler/providers/nextcloud/provider.py`) and the Celery failure-signal
handler (`waterbutler/tasks/app.py`) against the natural-language specification.

The provider is embedded shallowly: every `async` method becomes a pure Lean
function over a `Backend` oracle that supplies the status and parsed body of
each backend response, together with an explicit `Trace` that records the
requests issued and the responses opened/released.  HTTP status codes are plain
`Nat`, Python exceptions become the `Err` inductive, and `items[0]` on a
possibly-empty Python list becomes a `match` whose empty case produces
`Err.indexError` (the shallow image of Python's `IndexError`).

Pieces of WaterButler core that are not under `src/` (the `WaterButlerPath`
class, `BaseProvider.shares_storage_root`, provider equality,
`handle_name_conflict`, and `utils.parse_dav_response`) are modelled from the
spec; each such definition carries a doc comment saying so.
-/

set_option autoImplicit false
set_option linter.unusedVariables false

namespace WB

/-- Kind of a storage object: a file or a folder. -/
inductive Kind where
  | file
  | folder
deriving DecidableEq, Repr

/-- One segment of a path: a display name plus an optional backend-native
identifier (spec section 3, Path). -/
structure PathPart where
  name : String
  id : Option String
deriving DecidableEq, Repr

/-- Modelled from the spec: the canonical Path model (spec sections 3 and 4.1).
The WaterButler core class `WaterButlerPath` is not under `src/`; this record
keeps what the Nextcloud provider uses: the settings-prepend segments, the
user-supplied segments (empty list = backend root), and the folder flag taken
from the trailing slash of the raw string. -/
structure WaterButlerPath where
  prepend : List String
  parts : List PathPart
  isFolder : Bool
deriving DecidableEq, Repr

/-- Trailing-slash test on a string, as Python's `str.endswith('/')`;
implemented over the character list so that it evaluates by kernel
reduction. -/
def endsWithSlash (s : String) : Bool := s.data.getLast? == some '/'

/-- Split a character list on `/`, keeping only non-empty segments; `acc`
holds the reversed characters of the segment being read. -/
def segsOfChars : List Char → List Char → List String
  | acc, [] => if acc.isEmpty then [] else [String.mk acc.reverse]
  | acc, c :: cs =>
    if c = '/' then
      if acc.isEmpty then segsOfChars [] cs
      else String.mk acc.reverse :: segsOfChars [] cs
    else segsOfChars (c :: acc) cs

/-- Split a raw `/`-delimited string into its non-empty segments. -/
def segsOf (raw : String) : List String := segsOfChars [] raw.data

/-- Join segments with `/` separators. -/
def joinSegs : List String → String
  | [] => ""
  | [s] => s
  | s :: rest => s ++ "/" ++ joinSegs rest

/-- Modelled from the spec: construction of a Path from a raw user string with
a settings prepend, as in `WaterButlerPath(path, prepend=self.folder)`.  The
trailing slash is the sole discriminator of folder intent (spec section 4.1). -/
def WaterButlerPath.ofString (raw : String) (prepend : String) : WaterButlerPath :=
  { prepend := segsOf prepend
  , parts := (segsOf raw).map (fun n => { name := n, id := none })
  , isFolder := endsWithSlash raw }

/-- The kind denoted by the path's folder flag. -/
def WaterButlerPath.kind (p : WaterButlerPath) : Kind :=
  if p.isFolder then Kind.folder else Kind.file

/-- The materialized path: display segments only, no prepend, no identifiers
(spec glossary). -/
def WaterButlerPath.materializedPath (p : WaterButlerPath) : String :=
  "/" ++ joinSegs (p.parts.map PathPart.name)
      ++ (if p.isFolder && !p.parts.isEmpty then "/" else "")

/-- The full path sent to the backend: prepend segments followed by the
display segments. -/
def WaterButlerPath.fullPath (p : WaterButlerPath) : String :=
  "/" ++ joinSegs (p.prepend ++ p.parts.map PathPart.name)
      ++ (if p.isFolder && !(p.prepend.isEmpty && p.parts.isEmpty) then "/" else "")

/-- Name of the final segment (empty for the root). -/
def WaterButlerPath.name (p : WaterButlerPath) : String :=
  match p.parts.getLast? with
  | some part => part.name
  | none => ""

/-- Identifier of the final segment, when one was assigned. -/
def WaterButlerPath.identifier (p : WaterButlerPath) : Option String :=
  match p.parts.getLast? with
  | some part => part.id
  | none => none

/-- Parent path: strip the last segment and force the folder flag
(spec section 4.1). -/
def WaterButlerPath.parent (p : WaterButlerPath) : WaterButlerPath :=
  { p with parts := p.parts.dropLast, isFolder := true }

/-- Replace the name of the final segment (used by conflict renaming). -/
def WaterButlerPath.withName (p : WaterButlerPath) (n : String) : WaterButlerPath :=
  { p with parts :=
      p.parts.dropLast ++
        (match p.parts.getLast? with
         | some part => [{ part with name := n }]
         | none => []) }

/-- Drop the identifier of the final segment, as in
`path._parts[-1]._id = None` (provider.py line 213). -/
def WaterButlerPath.stripId (p : WaterButlerPath) : WaterButlerPath :=
  { p with parts :=
      p.parts.dropLast ++
        (match p.parts.getLast? with
         | some part => [{ part with id := none }]
         | none => []) }

/-- Python exceptions raised by the embedded code.  All but `indexError`,
`typeError` and `notImplemented` belong to the documented WaterButler taxonomy
(spec section 7). -/
inductive Err where
  | notFound (path : String)
  | metadataError
  | uploadError
  | deleteError
  | intraCopyError
  | indexError
  | typeError
  | notImplemented
deriving DecidableEq, Repr

/-- A metadata item produced by parsing one entry of a WebDAV PROPFIND
multistatus body (`NextcloudFileMetadata` / `NextcloudFolderMetadata`). -/
structure DavItem where
  kind : Kind
  materialized : String
  fileid : String
deriving DecidableEq, Repr

/-- A backend response as the provider sees it: HTTP status plus the result of
`utils.parse_dav_response` on its body.  `parse_dav_response` is repository
code not under `src/`; modelled from the spec it either fails (`parsed = none`, raising
`NotFoundError`, the case the provider catches in `validate_v1_path`) or
yields the list of parsed items. -/
structure DavResponse where
  status : Nat
  parsed : Option (List DavItem)
deriving DecidableEq, Repr

/-- The backend oracle: what the remote Nextcloud host answers to each request
the provider can make.  Keyed by the exact URL string the provider builds. -/
structure Backend where
  propfind : String → DavResponse
  putStatus : String → Nat
  moveCopyStatus : String → String → String → Nat
  children : String → List String
  existsAt : String → Bool

/-- Execution trace: the requests issued (method, url), the number of
responses handed to the provider still-open, and the number it released. -/
structure Trace where
  requests : List (String × String)
  opened : Nat
  released : Nat
deriving DecidableEq, Repr

/-- The empty trace. -/
def Trace.empty : Trace := { requests := [], opened := 0, released := 0 }

/-- Record a release of the current response
(`await response.release()`). -/
def releaseResp (t : Trace) : Trace :=
  { t with released := t.released + 1 }

/-- Modelled from the spec: `BaseProvider.make_request` (core, not under
`src/`).  It issues the request; when the status is among `expects` the open
response is handed to the caller, otherwise the declared `throws` error is
raised and the response never reaches the caller. -/
def makeRequest (method : String) (url : String) (resp : DavResponse)
    (expects : List Nat) (err : Err) (t : Trace) :
    Except Err DavResponse × Trace :=
  let t1 := { t with requests := t.requests ++ [(method, url)] }
  if resp.status ∈ expects then
    (Except.ok resp, { t1 with opened := t1.opened + 1 })
  else
    (Except.error err, t1)

/-- Credentials of a Nextcloud account (provider.py lines 30-34). -/
structure Credentials where
  host : String
  username : String
  password : String
deriving DecidableEq, Repr

/-- Settings of a Nextcloud provider (provider.py lines 25-28). -/
structure Settings where
  folder : String
  verifySsl : Bool
deriving DecidableEq, Repr

/-- A Nextcloud provider instance: one backend account plus settings
(provider.py `__init__`). -/
structure NextcloudProvider where
  credentials : Credentials
  settings : Settings
deriving DecidableEq, Repr

/-- The normalized base folder: `__init__` appends a trailing slash when the
configured folder lacks one (provider.py lines 46-48). -/
def NextcloudProvider.folder (prov : NextcloudProvider) : String :=
  if endsWithSlash prov.settings.folder then prov.settings.folder
  else prov.settings.folder ++ "/"

/-- The WebDAV endpoint prefix `_webdav_url_` (provider.py lines 58-65). -/
def webdavUrl (prov : NextcloudProvider) : String :=
  if endsWithSlash prov.credentials.host then
    prov.credentials.host ++ "remote.php/webdav/"
  else
    prov.credentials.host ++ "/remote.php/webdav/"

/-- The URL `validate_v1_path` / `validate_path` query for a raw user path. -/
def propfindUrl (prov : NextcloudProvider) (raw : String) : String :=
  webdavUrl prov ++ (WaterButlerPath.ofString raw prov.folder).fullPath

/-- Embedding of `NextcloudProvider.validate_v1_path` (provider.py lines
97-130): `/` short-circuits; otherwise one PROPFIND with
`expects=(200, 207, 404)`, body read and response released, then 404 check,
parse (a parse failure re-raises `NotFoundError`), `item[0]` and the
kind-against-trailing-slash check. -/
def validate_v1_path (prov : NextcloudProvider) (b : Backend) (raw : String)
    (t : Trace) : Except Err WaterButlerPath × Trace :=
  if raw = "/" then (Except.ok (WaterButlerPath.ofString raw prov.folder), t)
  else
    let full := WaterButlerPath.ofString raw prov.folder
    match makeRequest "PROPFIND" (propfindUrl prov raw)
        (b.propfind (propfindUrl prov raw)) [200, 207, 404]
        Err.metadataError t with
    | (Except.error e, t1) => (Except.error e, t1)
    | (Except.ok resp, t1) =>
      let t2 := releaseResp t1
      if resp.status = 404 then
        (Except.error (Err.notFound full.fullPath), t2)
      else
        match resp.parsed with
        | none => (Except.error (Err.notFound full.fullPath), t2)
        | some items =>
          match items with
          | [] => (Except.error Err.indexError, t2)
          | item :: _ =>
            if full.kind = item.kind then (Except.ok full, t2)
            else (Except.error (Err.notFound full.fullPath), t2)

/-- Embedding of `NextcloudProvider.validate_path` (provider.py lines
132-157): same PROPFIND, body read and response released, the parse is
attempted with `NotFoundError` swallowed, and the best-effort path is returned
unconditionally. -/
def validate_path (prov : NextcloudProvider) (b : Backend) (raw : String)
    (t : Trace) : Except Err WaterButlerPath × Trace :=
  if raw = "/" then (Except.ok (WaterButlerPath.ofString raw prov.folder), t)
  else
    let full := WaterButlerPath.ofString raw prov.folder
    match makeRequest "PROPFIND" (propfindUrl prov raw)
        (b.propfind (propfindUrl prov raw)) [200, 207, 404]
        Err.metadataError t with
    | (Except.error e, t1) => (Except.error e, t1)
    | (Except.ok _, t1) =>
      let t2 := releaseResp t1
      (Except.ok full, t2)

/-- Whether the code's own PROPFIND finds an existing object for `raw`: the
response is not a 404 and its body parses to at least one item. -/
def existsOnBackend (prov : NextcloudProvider) (b : Backend) (raw : String) : Bool :=
  let r := b.propfind (propfindUrl prov raw)
  decide (r.status ≠ 404) &&
    (match r.parsed with
     | some items => !items.isEmpty
     | none => false)

/-- Whether the kind of the first parsed item agrees with the trailing-slash
hint of `raw`; vacuously true when nothing parsed. -/
def davKindMatches (prov : NextcloudProvider) (b : Backend) (raw : String) : Bool :=
  match (b.propfind (propfindUrl prov raw)).parsed with
  | some (item :: _) =>
      decide ((WaterButlerPath.ofString raw prov.folder).kind = item.kind)
  | _ => true

/-- Result of `metadata`: a single item for a file path, a listing for a
folder path. -/
inductive Meta where
  | one (item : DavItem)
  | many (items : List DavItem)
deriving DecidableEq, Repr

/-- Embedding of `NextcloudProvider._metadata_folder` (provider.py lines
262-306): one PROPFIND with `expects=(204, 207)`.  On a 207 the body is read
and parsed FIRST and only then is the response released (lines 279-281), so a
parse failure propagates with the response never released.  The trailing
checksum loop is dead for this provider: its guard requires
`self.NAME == 'nextcloudinstitutions'` while `NAME` is `'nextcloud'`. -/
def metadata_folder (prov : NextcloudProvider) (b : Backend)
    (p : WaterButlerPath) (skipFirst : Bool) (t : Trace) :
    Except Err (List DavItem) × Trace :=
  match makeRequest "PROPFIND" (webdavUrl prov ++ p.fullPath)
      (b.propfind (webdavUrl prov ++ p.fullPath)) [204, 207]
      Err.metadataError t with
  | (Except.error e, t1) => (Except.error e, t1)
  | (Except.ok resp, t1) =>
    if resp.status = 207 then
      match resp.parsed with
      | none =>
        -- parse_dav_response raises before `await response.release()` runs:
        -- the response leaks on this exit path
        (Except.error (Err.notFound prov.folder), t1)
      | some items =>
        (Except.ok (if skipFirst then items.drop 1 else items), releaseResp t1)
    else
      (Except.ok [], releaseResp t1)

/-- Embedding of `NextcloudProvider._metadata_file` (provider.py lines
258-260): the folder query with `skip_first=False`, then `items[0]`, which on
an empty listing is Python's `IndexError`. -/
def metadata_file (prov : NextcloudProvider) (b : Backend)
    (p : WaterButlerPath) (t : Trace) : Except Err DavItem × Trace :=
  match metadata_folder prov b p false t with
  | (Except.error e, t1) => (Except.error e, t1)
  | (Except.ok items, t1) =>
    match items with
    | [] => (Except.error Err.indexError, t1)
    | item :: _ => (Except.ok item, t1)

/-- Embedding of `NextcloudProvider.metadata` (provider.py lines 246-256):
dispatch on `path.is_dir`. -/
def metadata (prov : NextcloudProvider) (b : Backend)
    (p : WaterButlerPath) (t : Trace) : Except Err Meta × Trace :=
  if p.isFolder then
    match metadata_folder prov b p true t with
    | (Except.error e, t1) => (Except.error e, t1)
    | (Except.ok items, t1) => (Except.ok (Meta.many items), t1)
  else
    match metadata_file prov b p t with
    | (Except.error e, t1) => (Except.error e, t1)
    | (Except.ok item, t1) => (Except.ok (Meta.one item), t1)

/-- The pure value `_metadata_folder` returns when it succeeds, read directly
off the backend oracle. -/
def folderListing (prov : NextcloudProvider) (b : Backend)
    (p : WaterButlerPath) (skipFirst : Bool) : List DavItem :=
  let r := b.propfind (webdavUrl prov ++ p.fullPath)
  if r.status = 207 then
    match r.parsed with
    | some items => if skipFirst then items.drop 1 else items
    | none => []
  else []

/-- Split a file name into stem and extension at the last dot, as
`os.path.splitext` does for plain names. -/
def splitExt (n : String) : String × String :=
  let cs := n.toList
  if '.' ∈ cs then
    let extLen := cs.reverse.takeWhile (fun c => c ≠ '.') |>.length
    (String.mk (cs.take (cs.length - extLen - 1)),
     String.mk (cs.drop (cs.length - extLen - 1)))
  else (n, "")

/-- The disambiguated name obtained by appending numeric suffix `k` before
the extension, e.g. `b (1).txt` (spec section 8, scenario). -/
def renameWith (n : String) (k : Nat) : String :=
  (splitExt n).1 ++ " (" ++ toString k ++ ")" ++ (splitExt n).2

/-- Bounded search for the first suffix `k` (starting at `k`, `fuel` tries)
whose renamed name is not among the destination folder's children. -/
def keepSearch (n : String) (siblings : List String) : Nat → Nat → Nat
  | 0, k => k
  | fuel + 1, k =>
    if renameWith n k ∈ siblings then keepSearch n siblings fuel (k + 1)
    else k

/-- The smallest numeric suffix (at least 1) whose renamed name is unused
among the destination folder's children. -/
def keepSuffix (n : String) (siblings : List String) : Nat :=
  keepSearch n siblings (siblings.length + 1) 1

/-- Modelled from the spec: core `handle_name_conflict` under the `keep`
policy (spec section 4.5 step 4); the core implementation is not under
`src/`.  If an object already exists at the destination name the request is
renamed by appending the smallest disambiguating suffix not in use among the
destination folder's children; otherwise the path is unchanged. -/
def handleNameConflictKeep (p : WaterButlerPath) (siblings : List String) :
    WaterButlerPath :=
  if p.name ∈ siblings then
    p.withName (renameWith p.name (keepSuffix p.name siblings))
  else p

/-- The destination path `upload` actually writes to (provider.py lines
211-213): conflict handling and identifier stripping run only when the path
already carries an identifier AND the policy is `keep`. -/
def uploadDestPath (prov : NextcloudProvider) (b : Backend)
    (p : WaterButlerPath) (conflict : String) : WaterButlerPath :=
  if p.identifier.isSome ∧ conflict = "keep" then
    (handleNameConflictKeep p (b.children p.parent.fullPath)).stripId
  else p

/-- Embedding of `NextcloudProvider.upload` (provider.py lines 203-227):
conflict handling (guarded by `path.identifier`), a PUT with
`expects=(201, 204)` released immediately, a metadata query on the written
path, and the created flag `response.status == 201`. -/
def upload (prov : NextcloudProvider) (b : Backend) (streamSize : Nat)
    (p : WaterButlerPath) (conflict : String) (t : Trace) :
    Except Err (Meta × Bool) × Trace :=
  let dest := uploadDestPath prov b p conflict
  match makeRequest "PUT" (webdavUrl prov ++ dest.fullPath)
      { status := b.putStatus (webdavUrl prov ++ dest.fullPath), parsed := some [] }
      [201, 204] Err.uploadError t with
  | (Except.error e, t1) => (Except.error e, t1)
  | (Except.ok resp, t1) =>
    let t2 := releaseResp t1
    match metadata prov b dest t2 with
    | (Except.error e, t3) => (Except.error e, t3)
    | (Except.ok m, t3) => (Except.ok (m, decide (resp.status = 201)), t3)

/-- Result of `_do_dav_move_copy`: for a file destination, the metadata of
the destination; for a folder destination, the child entry chosen from the
re-fetched parent listing together with the destination's own listing as its
children (provider.py lines 458-464). -/
inductive MCOut where
  | file (m : Meta)
  | folder (chosen : DavItem) (children : Meta)
deriving DecidableEq, Repr

/-- Embedding of `NextcloudProvider._do_dav_move_copy` (provider.py lines
434-466): the WebDAV MOVE/COPY request with `expects=(201, 204)` released
immediately, metadata of the destination, and for folder destinations the
re-fetched parent listing filtered by materialized path, indexed at 0. -/
def do_dav_move_copy (prov : NextcloudProvider) (b : Backend)
    (src : WaterButlerPath) (dest : WaterButlerPath) (op : String)
    (t : Trace) : Except Err (MCOut × Bool) × Trace :=
  if op ≠ "MOVE" ∧ op ≠ "COPY" then (Except.error Err.notImplemented, t)
  else
    match makeRequest op (webdavUrl prov ++ src.fullPath)
        { status := b.moveCopyStatus op src.fullPath dest.fullPath
        , parsed := some [] }
        [201, 204] Err.intraCopyError t with
    | (Except.error e, t1) => (Except.error e, t1)
    | (Except.ok resp, t1) =>
      let t2 := releaseResp t1
      match metadata prov b dest t2 with
      | (Except.error e, t3) => (Except.error e, t3)
      | (Except.ok fileMeta, t3) =>
        if dest.isFolder then
          match metadata prov b dest.parent t3 with
          | (Except.error e, t4) => (Except.error e, t4)
          | (Except.ok (Meta.one _), t4) =>
            -- unreachable: `parent` always carries the folder flag, so
            -- `metadata` returns a listing; a single item here would be a
            -- Python TypeError in the list comprehension
            (Except.error Err.typeError, t4)
          | (Except.ok (Meta.many parentMeta), t4) =>
            match (parentMeta.filter
                (fun m => m.materialized = dest.materializedPath)).head? with
            | none => (Except.error Err.indexError, t4)
            | some chosen =>
              (Except.ok (MCOut.folder chosen fileMeta, decide (resp.status = 201)), t4)
        else
          (Except.ok (MCOut.file fileMeta, decide (resp.status = 201)), t3)

/-- Embedding of `NextcloudProvider.intra_copy` (provider.py lines 428-429). -/
def intra_copy (prov : NextcloudProvider) (b : Backend)
    (src dest : WaterButlerPath) (t : Trace) : Except Err (MCOut × Bool) × Trace :=
  do_dav_move_copy prov b src dest "COPY" t

/-- Embedding of `NextcloudProvider.intra_move` (provider.py lines 431-432). -/
def intra_move (prov : NextcloudProvider) (b : Backend)
    (src dest : WaterButlerPath) (t : Trace) : Except Err (MCOut × Bool) × Trace :=
  do_dav_move_copy prov b src dest "MOVE" t

/-- Modelled from the spec: `BaseProvider.shares_storage_root` (spec section
4.4); the core base class is not under `src/`.  The provider docstring
(provider.py lines 85-94) records that the parent method compares the
configured storage roots, so two accounts with the same base folder name look
identical to it. -/
def baseSharesStorageRoot (a b : NextcloudProvider) : Bool :=
  decide (a.settings = b.settings)

/-- Embedding of `NextcloudProvider.shares_storage_root` (provider.py line
95): the parent comparison AND equality of credentials. -/
def shares_storage_root (a b : NextcloudProvider) : Bool :=
  baseSharesStorageRoot a b && decide (a.credentials = b.credentials)

/-- Modelled from the spec: provider equality, used by `self ==
dest_provider`; per spec section 4.4 the default intra rule is "only if src
and dest are the same backend account", so equality is same backend type
(both are Nextcloud here) with the same credentials. -/
def providerEq (a b : NextcloudProvider) : Bool :=
  decide (a.credentials = b.credentials)

/-- Embedding of `NextcloudProvider.can_intra_copy` (provider.py lines
422-423): `self == dest_provider`. -/
def can_intra_copy (a b : NextcloudProvider) : Bool := providerEq a b

/-- Embedding of `NextcloudProvider.can_intra_move` (provider.py lines
425-426): `self == dest_provider`. -/
def can_intra_move (a b : NextcloudProvider) : Bool := providerEq a b

/-- What the Celery failure handler reports to Sentry: the scope tags it sets
and the exception it captures (`waterbutler/tasks/app.py` lines 20-24). -/
structure SentryReport where
  tags : List (String × String)
  capturedException : String
deriving DecidableEq, Repr

/-- Embedding of `process_failure_signal` (`waterbutler/tasks/app.py` lines
16-26): it tags the report with the task id and the sending task and captures
the current exception; the signal's `*args` / `**kwargs` (the job payload,
which holds credentials) are accepted but never written to the report. -/
def process_failure_signal (sender : String) (taskId : String)
    (args : List String) (kwargs : List (String × String))
    (exc : String) : SentryReport :=
  { tags := [("task_id", taskId), ("task", sender)]
  , capturedException := exc }

/-- Well-formedness of the backend answer for one validate query: the status
is one of the 200/207/404 the provider's docstring documents for WebDAV
PROPFIND (provider.py lines 98-100). -/
def davStatusOk (prov : NextcloudProvider) (b : Backend) (raw : String) : Bool :=
  let s := (b.propfind (propfindUrl prov raw)).status
  decide (s = 200) || decide (s = 207) || decide (s = 404)

/-- Well-formedness of the backend answer for one validate query: a
successfully parsed multistatus body for a PROPFIND on an object contains at
least the object itself. -/
def parsedNonempty (prov : NextcloudProvider) (b : Backend) (raw : String) : Bool :=
  match (b.propfind (propfindUrl prov raw)).parsed with
  | some items => !items.isEmpty
  | none => true

/-! ### Concrete fixtures used by counterexamples and witnesses -/

/-- A concrete provider instance (account `alice`, base folder `mydir`). -/
def provA : NextcloudProvider :=
  { credentials :=
      { host := "https://cloud.example.test"
      , username := "alice"
      , password := "pw-alice" }
  , settings := { folder := "/mydir/", verifySsl := true } }

/-- A second concrete provider: same backend type and the same base folder as
`provA` but a different account. -/
def provB : NextcloudProvider :=
  { credentials :=
      { host := "https://cloud.example.test"
      , username := "bob"
      , password := "pw-bob" }
  , settings := { folder := "/mydir/", verifySsl := true } }

/-- A backend that answers 404 with an unparseable body to everything, never
holds an object, and has no children anywhere. -/
def backend0 : Backend :=
  { propfind := fun _ => { status := 404, parsed := none }
  , putStatus := fun _ => 201
  , moveCopyStatus := fun _ _ _ => 201
  , children := fun _ => []
  , existsAt := fun _ => false }

/-- Backend for the C1 counterexample: the object at `/a` exists and is a
folder, while the query string `/a` carries a file hint. -/
def bC1 : Backend :=
  { backend0 with propfind := fun u =>
      if u = propfindUrl provA "/a" then
        { status := 207
        , parsed := some [{ kind := Kind.folder, materialized := "/a/", fileid := "101" }] }
      else { status := 404, parsed := none } }

/-- Backend for the C1-amended and C4 witnesses: `/gone` does not exist (404
with a body the DAV parser rejects). -/
def bC4 : Backend :=
  { backend0 with propfind := fun u =>
      if u = propfindUrl provA "/gone" then { status := 404, parsed := none }
      else { status := 404, parsed := none } }

/-- The path whose folder listing leaks in the C2 code bug. -/
def pathC2 : WaterButlerPath := WaterButlerPath.ofString "/leaky/" provA.folder

/-- Backend for the C2 code bug: the PROPFIND on `pathC2` answers 207 with a
body `parse_dav_response` rejects. -/
def bC2 : Backend :=
  { backend0 with propfind := fun u =>
      if u = webdavUrl provA ++ pathC2.fullPath then { status := 207, parsed := none }
      else { status := 404, parsed := none } }

/-- The upload destination of the C5 counterexample: a path with no
pre-assigned identifier, exactly as `validate_path` builds them. -/
def pathC5 : WaterButlerPath := WaterButlerPath.ofString "/x.txt" provA.folder

/-- The existing object at the C5 counterexample's destination. -/
def itemC5 : DavItem :=
  { kind := Kind.file, materialized := "/x.txt", fileid := "f9" }

/-- Backend for the C5 counterexample: an object already exists at the
destination name (`x.txt` is among the destination folder's children, a PUT
answers 204 = updated existing). -/
def bC5 : Backend :=
  { backend0 with
    propfind := fun u =>
      if u = webdavUrl provA ++ pathC5.fullPath then
        { status := 207, parsed := some [itemC5] }
      else { status := 404, parsed := none }
  , putStatus := fun _ => 204
  , children := fun u => if u = pathC5.parent.fullPath then ["x.txt"] else []
  , existsAt := fun u => u = webdavUrl provA ++ pathC5.fullPath }

/-- A path carrying a pre-assigned identifier, for the C5-amended witness. -/
def pathC5w : WaterButlerPath :=
  { prepend := ["mydir"]
  , parts := [{ name := "b.txt", id := some "42" }]
  , isFolder := false }

/-- Backend for the C5-amended witness: both `b.txt` and `b (1).txt` are
already taken among the destination folder's children. -/
def bC5w : Backend :=
  { backend0 with children := fun u =>
      if u = pathC5w.parent.fullPath then ["b.txt", "b (1).txt"] else [] }

/-- The upload destination of the C6 witness. -/
def pathC6 : WaterButlerPath := WaterButlerPath.ofString "/new.txt" provA.folder

/-- The file written by the C6 witness upload. -/
def itemC6 : DavItem :=
  { kind := Kind.file, materialized := "/new.txt", fileid := "f10" }

/-- Backend for the C6 witness: nothing exists anywhere, PUT answers 201 per
the WebDAV contract, and the metadata re-query finds the written file. -/
def bC6 : Backend :=
  { backend0 with
    propfind := fun u =>
      if u = webdavUrl provA ++ pathC6.fullPath then
        { status := 207, parsed := some [itemC6] }
      else { status := 404, parsed := none }
  , putStatus := fun u => if backend0.existsAt u then 204 else 201 }

/-- Source path of the C7 witness intra copy. -/
def srcC7 : WaterButlerPath := WaterButlerPath.ofString "/s/" provA.folder

/-- Destination path of the C7 witness intra copy (a folder). -/
def destC7 : WaterButlerPath := WaterButlerPath.ofString "/d/" provA.folder

/-- The child listed inside the copied folder in the C7 witness. -/
def childC7 : DavItem :=
  { kind := Kind.file, materialized := "/d/c.txt", fileid := "f21" }

/-- The destination folder as its parent listing reports it after the copy;
the backend assigned it a fresh identifier. -/
def chosenC7 : DavItem :=
  { kind := Kind.folder, materialized := "/d/", fileid := "new99" }

/-- Backend for the C7 witness: the COPY succeeds (201), the destination
listing shows the folder itself plus one child, and the re-fetched parent
listing contains the destination folder under a new identifier. -/
def bC7 : Backend :=
  { backend0 with
    propfind := fun u =>
      if u = webdavUrl provA ++ destC7.fullPath then
        { status := 207
        , parsed := some
            [{ kind := Kind.folder, materialized := "/d/", fileid := "self" }, childC7] }
      else if u = webdavUrl provA ++ destC7.parent.fullPath then
        { status := 207
        , parsed := some
            [{ kind := Kind.folder, materialized := "/", fileid := "root" }
            , chosenC7
            , { kind := Kind.folder, materialized := "/other/", fileid := "f30" }] }
      else { status := 404, parsed := none } }

/-- The file path of the C10 witness. -/
def pathC10 : WaterButlerPath := WaterButlerPath.ofString "/ghost.txt" provA.folder

/-- Backend for the C10 witness: the PROPFIND listing query for the file
answers 204, the empty response. -/
def bC10 : Backend :=
  { backend0 with propfind := fun u =>
      if u = webdavUrl provA ++ pathC10.fullPath then { status := 204, parsed := some [] }
      else { status := 404, parsed := none } }

/-! ### Theorems -/

/-- Claim C8: for the input path string exactly `/`, both `validate_v1_path`
and `validate_path` return the valid root Path, a folder with no segments,
and neither operation issues any backend request (the trace is returned
unchanged, whatever the backend would answer). -/
theorem claim_C8 (prov : NextcloudProvider) (b : Backend) (t : Trace) :
    validate_v1_path prov b "/" t =
      (Except.ok (WaterButlerPath.ofString "/" prov.folder), t)
    ∧ validate_path prov b "/" t =
      (Except.ok (WaterButlerPath.ofString "/" prov.folder), t)
    ∧ (WaterButlerPath.ofString "/" prov.folder).isFolder = true
    ∧ (WaterButlerPath.ofString "/" prov.folder).parts = [] := by
  refine ⟨rfl, rfl, rfl, rfl⟩

/-- Claim C9: the failure report sent to Sentry carries the task identity and
the originating exception but is a constant function of the task's `args` and
`kwargs`: the reported detail is independent of the secret job payload. -/
theorem claim_C9 (sender taskId : String) (args args2 : List String)
    (kwargs kwargs2 : List (String × String)) (exc : String) :
    process_failure_signal sender taskId args kwargs exc =
      process_failure_signal sender taskId args2 kwargs2 exc
    ∧ (process_failure_signal sender taskId args kwargs exc).tags =
      [("task_id", taskId), ("task", sender)]
    ∧ (process_failure_signal sender taskId args kwargs exc).capturedException
      = exc :=
  ⟨rfl, rfl, rfl⟩

/-- Claim C3: two Nextcloud provider instances bound to different credentials
never share a storage root, even with identical settings, and a transfer
between them is never treated as an intra-operation. -/
theorem claim_C3 (a b : NextcloudProvider)
    (h : a.credentials ≠ b.credentials) :
    shares_storage_root a b = false
    ∧ can_intra_copy a b = false
    ∧ can_intra_move a b = false := by
  have hd : decide (a.credentials = b.credentials) = false :=
    decide_eq_false h
  refine ⟨?_, ?_, ?_⟩ <;>
    simp [shares_storage_root, can_intra_copy, can_intra_move, providerEq, hd]

/-- Witness for claim C3: `provA` and `provB` share the same base folder name
but belong to different accounts. -/
theorem claim_C3_witness :
    shares_storage_root provA provB = false
    ∧ can_intra_copy provA provB = false
    ∧ can_intra_move provA provB = false :=
  claim_C3 provA provB (by decide)

/-- Claim C2, failing run: `_metadata_folder` on a 207 response whose body
`parse_dav_response` rejects exits with an error while the PROPFIND response
it opened was never released — one response opened, zero released — so the
claim that every exit path releases the response before re-raising fails on
this input. -/
theorem claim_C2_bug :
    metadata_folder provA bC2 pathC2 true Trace.empty =
      (Except.error (Err.notFound provA.folder),
       { requests := [("PROPFIND", webdavUrl provA ++ pathC2.fullPath)]
       , opened := 1
       , released := 0 }) := by
  rfl

/-- Claim C1, counterexample: the path string `/a` resolves to an existing
object on the backend (a folder), yet `validate_v1_path` raises
`NotFoundError` while `validate_path` returns the Path — the two operations
also differ on kind mismatch, not only on absence. -/
theorem claim_C1_counterexample :
    existsOnBackend provA bC1 "/a" = true
    ∧ (validate_path provA bC1 "/a" Trace.empty).1 =
        Except.ok (WaterButlerPath.ofString "/a" provA.folder)
    ∧ (validate_v1_path provA bC1 "/a" Trace.empty).1 =
        Except.error
          (Err.notFound (WaterButlerPath.ofString "/a" provA.folder).fullPath) := by
  refine ⟨rfl, rfl, rfl⟩

/-- Claim C10: for every file Path whose PROPFIND listing query returns an
empty result — status 204, or a 207 body parsing to zero items — the
`metadata` operation fails with the unhandled `IndexError` from `items[0]`,
not with a `MetadataError` or `NotFoundError` of the documented taxonomy. -/
theorem claim_C10 (prov : NextcloudProvider) (b : Backend)
    (p : WaterButlerPath) (t : Trace)
    (hfile : p.isFolder = false)
    (hempty : (b.propfind (webdavUrl prov ++ p.fullPath)).status = 204
      ∨ ((b.propfind (webdavUrl prov ++ p.fullPath)).status = 207
         ∧ (b.propfind (webdavUrl prov ++ p.fullPath)).parsed = some [])) :
    (metadata prov b p t).1 = Except.error Err.indexError := by
  rcases hempty with h204 | ⟨h207, hparsed⟩
  · simp [metadata, metadata_file, metadata_folder, makeRequest, hfile,
      h204, releaseResp]
  · simp [metadata, metadata_file, metadata_folder, makeRequest, hfile,
      h207, hparsed, releaseResp]

/-- Witness for claim C10: a concrete file path whose listing query returns
the empty 204 response makes `metadata` fail with `IndexError`. -/
theorem claim_C10_witness :
    (metadata provA bC10 pathC10 Trace.empty).1 = Except.error Err.indexError :=
  claim_C10 provA bC10 pathC10 Trace.empty (by decide) (Or.inl (by decide))

/-- A well-formed validate answer has its status among the codes
`make_request` expects. -/
theorem mem_expects_of_statusOk (prov : NextcloudProvider) (b : Backend)
    (raw : String) (h : davStatusOk prov b raw = true) :
    (b.propfind (propfindUrl prov raw)).status ∈ ([200, 207, 404] : List Nat) := by
  simp only [davStatusOk, Bool.or_eq_true, decide_eq_true_eq] at h
  rcases h with (h | h) | h <;> simp [h]

/-- Claim C1 (amended): when the backend answers a validate query with one of
the documented statuses and any parsed listing is non-empty, the two
operations agree as follows: on an existing object whose kind matches the
trailing-slash hint both return the same Path; on a non-existing object
`validate_v1_path` raises `NotFoundError` while `validate_path` returns the
best-effort Path; and on an existing object whose kind disagrees with the
hint `validate_v1_path` also raises `NotFoundError` while `validate_path`
returns — so the two differ exactly on absence or kind mismatch, not on
absence alone. -/
theorem claim_C1_amended (prov : NextcloudProvider) (b : Backend)
    (raw : String) (t : Trace)
    (hroot : raw ≠ "/")
    (hstatus : davStatusOk prov b raw = true)
    (hwf : parsedNonempty prov b raw = true) :
    (existsOnBackend prov b raw = true → davKindMatches prov b raw = true →
      (validate_v1_path prov b raw t).1 =
        Except.ok (WaterButlerPath.ofString raw prov.folder)
      ∧ (validate_path prov b raw t).1 =
        Except.ok (WaterButlerPath.ofString raw prov.folder))
    ∧ (existsOnBackend prov b raw = false →
      (validate_v1_path prov b raw t).1 =
        Except.error (Err.notFound (WaterButlerPath.ofString raw prov.folder).fullPath)
      ∧ (validate_path prov b raw t).1 =
        Except.ok (WaterButlerPath.ofString raw prov.folder))
    ∧ (existsOnBackend prov b raw = true → davKindMatches prov b raw = false →
      (validate_v1_path prov b raw t).1 =
        Except.error (Err.notFound (WaterButlerPath.ofString raw prov.folder).fullPath)
      ∧ (validate_path prov b raw t).1 =
        Except.ok (WaterButlerPath.ofString raw prov.folder)) := by
  have hmem := mem_expects_of_statusOk prov b raw hstatus
  have hv0 : (validate_path prov b raw t).1 =
      Except.ok (WaterButlerPath.ofString raw prov.folder) := by
    simp [validate_path, makeRequest, hroot, hmem]
  by_cases h404 : (b.propfind (propfindUrl prov raw)).status = 404
  · have hex : existsOnBackend prov b raw = false := by
      simp [existsOnBackend, h404]
    have hv1 : (validate_v1_path prov b raw t).1 =
        Except.error (Err.notFound (WaterButlerPath.ofString raw prov.folder).fullPath) := by
      simp [validate_v1_path, makeRequest, hroot, hmem, h404]
    refine ⟨?_, fun _ => ⟨hv1, hv0⟩, ?_⟩ <;>
      · intro h
        rw [hex] at h
        simp at h
  · cases hp : (b.propfind (propfindUrl prov raw)).parsed with
    | none =>
      have hex : existsOnBackend prov b raw = false := by
        simp [existsOnBackend, hp]
      have hv1 : (validate_v1_path prov b raw t).1 =
          Except.error (Err.notFound (WaterButlerPath.ofString raw prov.folder).fullPath) := by
        simp [validate_v1_path, makeRequest, hroot, hmem, h404, hp]
      refine ⟨?_, fun _ => ⟨hv1, hv0⟩, ?_⟩ <;>
        · intro h
          rw [hex] at h
          simp at h
    | some items =>
      cases items with
      | nil =>
        exfalso
        simp [parsedNonempty, hp] at hwf
      | cons item rest =>
        have hex : existsOnBackend prov b raw = true := by
          simp [existsOnBackend, hp, h404]
        by_cases hk : (WaterButlerPath.ofString raw prov.folder).kind = item.kind
        · have hkm : davKindMatches prov b raw = true := by
            simp [davKindMatches, hp, hk]
          have hv1 : (validate_v1_path prov b raw t).1 =
              Except.ok (WaterButlerPath.ofString raw prov.folder) := by
            simp [validate_v1_path, makeRequest, hroot, hmem, h404, hp, hk]
          refine ⟨fun _ _ => ⟨hv1, hv0⟩, ?_, ?_⟩
          · intro h
            rw [hex] at h
            simp at h
          · intro _ h
            rw [hkm] at h
            simp at h
        · have hkm : davKindMatches prov b raw = false := by
            simp [davKindMatches, hp, hk]
          have hv1 : (validate_v1_path prov b raw t).1 =
              Except.error (Err.notFound (WaterButlerPath.ofString raw prov.folder).fullPath) := by
            simp [validate_v1_path, makeRequest, hroot, hmem, h404, hp, hk]
          refine ⟨?_, ?_, fun _ _ => ⟨hv1, hv0⟩⟩
          · intro _ h
            rw [hkm] at h
            simp at h
          · intro h
            rw [hex] at h
            simp at h

/-- Witness for the amended claim C1: a concrete query for `/gone` that the
backend answers with 404; `validate_v1_path` raises `NotFoundError`,
`validate_path` returns the best-effort Path. -/
theorem claim_C1_amended_witness :
    (existsOnBackend provA bC4 "/gone" = true →
      davKindMatches provA bC4 "/gone" = true →
      (validate_v1_path provA bC4 "/gone" Trace.empty).1 =
        Except.ok (WaterButlerPath.ofString "/gone" provA.folder)
      ∧ (validate_path provA bC4 "/gone" Trace.empty).1 =
        Except.ok (WaterButlerPath.ofString "/gone" provA.folder))
    ∧ (existsOnBackend provA bC4 "/gone" = false →
      (validate_v1_path provA bC4 "/gone" Trace.empty).1 =
        Except.error
          (Err.notFound (WaterButlerPath.ofString "/gone" provA.folder).fullPath)
      ∧ (validate_path provA bC4 "/gone" Trace.empty).1 =
        Except.ok (WaterButlerPath.ofString "/gone" provA.folder))
    ∧ (existsOnBackend provA bC4 "/gone" = true →
      davKindMatches provA bC4 "/gone" = false →
      (validate_v1_path provA bC4 "/gone" Trace.empty).1 =
        Except.error
          (Err.notFound (WaterButlerPath.ofString "/gone" provA.folder).fullPath)
      ∧ (validate_path provA bC4 "/gone" Trace.empty).1 =
        Except.ok (WaterButlerPath.ofString "/gone" provA.folder)) :=
  claim_C1_amended provA bC4 "/gone" Trace.empty (by decide) (by decide) (by decide)

/-- Claim C4: under the same well-formedness conditions, `validate_v1_path`
raises `NotFoundError` exactly when the path does not exist on the backend or
the resolved object's kind disagrees with the trailing-slash hint of the
input string. -/
theorem claim_C4 (prov : NextcloudProvider) (b : Backend)
    (raw : String) (t : Trace)
    (hroot : raw ≠ "/")
    (hstatus : davStatusOk prov b raw = true)
    (hwf : parsedNonempty prov b raw = true) :
    ((validate_v1_path prov b raw t).1 =
      Except.error (Err.notFound (WaterButlerPath.ofString raw prov.folder).fullPath))
    ↔ (existsOnBackend prov b raw = false ∨ davKindMatches prov b raw = false) := by
  have hmem := mem_expects_of_statusOk prov b raw hstatus
  by_cases h404 : (b.propfind (propfindUrl prov raw)).status = 404
  · have hex : existsOnBackend prov b raw = false := by
      simp [existsOnBackend, h404]
    have hv1 : (validate_v1_path prov b raw t).1 =
        Except.error (Err.notFound (WaterButlerPath.ofString raw prov.folder).fullPath) := by
      simp [validate_v1_path, makeRequest, hroot, hmem, h404]
    rw [hv1, hex]
    simp
  · cases hp : (b.propfind (propfindUrl prov raw)).parsed with
    | none =>
      have hex : existsOnBackend prov b raw = false := by
        simp [existsOnBackend, hp]
      have hv1 : (validate_v1_path prov b raw t).1 =
          Except.error (Err.notFound (WaterButlerPath.ofString raw prov.folder).fullPath) := by
        simp [validate_v1_path, makeRequest, hroot, hmem, h404, hp]
      rw [hv1, hex]
      simp
    | some items =>
      cases items with
      | nil =>
        exfalso
        simp [parsedNonempty, hp] at hwf
      | cons item rest =>
        have hex : existsOnBackend prov b raw = true := by
          simp [existsOnBackend, hp, h404]
        by_cases hk : (WaterButlerPath.ofString raw prov.folder).kind = item.kind
        · have hkm : davKindMatches prov b raw = true := by
            simp [davKindMatches, hp, hk]
          have hv1 : (validate_v1_path prov b raw t).1 =
              Except.ok (WaterButlerPath.ofString raw prov.folder) := by
            simp [validate_v1_path, makeRequest, hroot, hmem, h404, hp, hk]
          rw [hv1, hex, hkm]
          simp
        · have hkm : davKindMatches prov b raw = false := by
            simp [davKindMatches, hp, hk]
          have hv1 : (validate_v1_path prov b raw t).1 =
              Except.error (Err.notFound (WaterButlerPath.ofString raw prov.folder).fullPath) := by
            simp [validate_v1_path, makeRequest, hroot, hmem, h404, hp, hk]
          rw [hv1, hkm]
          simp

/-- Witness for claim C4: at the concrete non-existing path `/gone`,
`validate_v1_path` raising `NotFoundError` is equivalent to the path's
absence. -/
theorem claim_C4_witness :
    ((validate_v1_path provA bC4 "/gone" Trace.empty).1 =
      Except.error
        (Err.notFound (WaterButlerPath.ofString "/gone" provA.folder).fullPath))
    ↔ (existsOnBackend provA bC4 "/gone" = false
       ∨ davKindMatches provA bC4 "/gone" = false) :=
  claim_C4 provA bC4 "/gone" Trace.empty (by decide) (by decide) (by decide)

/-- Claim C6: when the backend follows the WebDAV PUT contract (201 when
nothing existed at the target, 204 when an existing object was overwritten),
a successful upload returns the created flag true exactly when the object was
newly created at the written path. -/
theorem claim_C6 (prov : NextcloudProvider) (b : Backend) (streamSize : Nat)
    (p : WaterButlerPath) (conflict : String) (t : Trace)
    (hweb : ∀ u, b.putStatus u = if b.existsAt u = true then 204 else 201)
    (m : Meta) (c : Bool) (t3 : Trace)
    (hrun : upload prov b streamSize p conflict t = (Except.ok (m, c), t3)) :
    (c = true ↔
      b.existsAt
        (webdavUrl prov ++ (uploadDestPath prov b p conflict).fullPath) = false) := by
  cases hex : b.existsAt (webdavUrl prov ++ (uploadDestPath prov b p conflict).fullPath)
  · simp only [upload, makeRequest, hweb, hex, if_false, releaseResp] at hrun
    simp at hrun
    split at hrun
    · simp at hrun
    · simp at hrun
      exact ⟨fun _ => rfl, fun _ => hrun.1.2⟩
  · simp only [upload, makeRequest, hweb, hex, if_true, releaseResp] at hrun
    simp at hrun
    split at hrun
    · simp at hrun
    · simp at hrun
      simp [hrun.1.2]

/-- Witness for claim C6: uploading to a path where nothing exists yields the
created flag true. -/
theorem claim_C6_witness :
    (true = true ↔
      bC6.existsAt
        (webdavUrl provA ++ (uploadDestPath provA bC6 pathC6 "replace").fullPath)
        = false) :=
  claim_C6 provA bC6 10 pathC6 "replace" Trace.empty (fun _ => rfl)
    (Meta.one itemC6) true (upload provA bC6 10 pathC6 "replace" Trace.empty).2
    (by rfl)

/-- Claim C5, counterexample: an upload under conflict policy `keep` whose
destination name is already taken (the PUT answers 204 = updated existing and
the name sits among the destination folder's children), but whose path
carries no pre-assigned identifier — exactly what this provider's
`validate_path` produces — is NOT renamed: the PUT goes to the original name
and the result flag reports an overwrite of the existing object, not a
create. -/
theorem claim_C5_counterexample :
    pathC5.identifier = none
    ∧ pathC5.name ∈ bC5.children pathC5.parent.fullPath
    ∧ bC5.existsAt (webdavUrl provA ++ pathC5.fullPath) = true
    ∧ uploadDestPath provA bC5 pathC5 "keep" = pathC5
    ∧ (upload provA bC5 10 pathC5 "keep" Trace.empty).2.requests.head? =
        some ("PUT", webdavUrl provA ++ pathC5.fullPath)
    ∧ (upload provA bC5 10 pathC5 "keep" Trace.empty).1 =
        Except.ok (Meta.one itemC5, false) := by
  refine ⟨rfl, by decide, by decide, rfl, rfl, rfl⟩

/-- The bounded suffix search returns a suffix whose renamed name is unused,
provided some suffix within its fuel is unused. -/
theorem keepSearch_not_mem (n : String) (siblings : List String) :
    ∀ (fuel k : Nat),
      (∃ j, k ≤ j ∧ j < k + fuel ∧ renameWith n j ∉ siblings) →
      renameWith n (keepSearch n siblings fuel k) ∉ siblings := by
  intro fuel
  induction fuel with
  | zero =>
    intro k h
    rcases h with ⟨j, hj1, hj2, _⟩
    omega
  | succ fuel ih =>
    intro k h
    rcases h with ⟨j, hj1, hj2, hj3⟩
    by_cases hk : renameWith n k ∈ siblings
    · simp only [keepSearch, if_pos hk]
      apply ih
      refine ⟨j, ?_, by omega, hj3⟩
      by_cases hkj : j = k
      · subst hkj
        exact absurd hk hj3
      · omega
    · simp only [keepSearch, if_neg hk]
      exact hk

/-- Every suffix below the one the bounded search returns is in use. -/
theorem keepSearch_min (n : String) (siblings : List String) :
    ∀ (fuel k j : Nat), k ≤ j → j < keepSearch n siblings fuel k →
      renameWith n j ∈ siblings := by
  intro fuel
  induction fuel with
  | zero =>
    intro k j h1 h2
    simp only [keepSearch] at h2
    omega
  | succ fuel ih =>
    intro k j h1 h2
    by_cases hk : renameWith n k ∈ siblings
    · simp only [keepSearch, if_pos hk] at h2
      by_cases hkj : j = k
      · subst hkj
        exact hk
      · exact ih (k + 1) j (by omega) h2
    · simp only [keepSearch, if_neg hk] at h2
      omega

/-- Renaming then stripping the identifier leaves the new name in place and
no identifier on the final segment. -/
theorem stripId_withName (p : WaterButlerPath) (n : String)
    (hp : p.parts.getLast?.isSome = true) :
    ((p.withName n).stripId).name = n
    ∧ ((p.withName n).stripId).identifier = none := by
  rcases hlast : p.parts.getLast? with _ | part
  · rw [hlast] at hp
    simp at hp
  · constructor <;>
      simp [WaterButlerPath.withName, WaterButlerPath.stripId,
        WaterButlerPath.name, WaterButlerPath.identifier, hlast,
        List.dropLast_concat, List.getLast?_concat]

/-- A path with an identifier has a final segment. -/
theorem getLast_isSome_of_identifier (p : WaterButlerPath)
    (hid : p.identifier.isSome = true) : p.parts.getLast?.isSome = true := by
  unfold WaterButlerPath.identifier at hid
  rcases hlast : p.parts.getLast? with _ | part
  · rw [hlast] at hid
    simp at hid
  · rfl

/-- `make_request` records exactly its own request in the trace. -/
theorem makeRequest_requests (method url : String) (resp : DavResponse)
    (expects : List Nat) (err : Err) (t : Trace) :
    (makeRequest method url resp expects err t).2.requests =
      t.requests ++ [(method, url)] := by
  unfold makeRequest
  split <;> rfl

/-- The final trace of `_metadata_folder` extends the incoming trace's
request list with exactly the one PROPFIND it issues. -/
theorem metadata_folder_requests (prov : NextcloudProvider) (b : Backend)
    (p : WaterButlerPath) (skipFirst : Bool) (t : Trace) :
    (metadata_folder prov b p skipFirst t).2.requests =
      t.requests ++ [("PROPFIND", webdavUrl prov ++ p.fullPath)] := by
  have hreq := makeRequest_requests "PROPFIND" (webdavUrl prov ++ p.fullPath)
    (b.propfind (webdavUrl prov ++ p.fullPath)) [204, 207] Err.metadataError t
  rcases hmk : makeRequest "PROPFIND" (webdavUrl prov ++ p.fullPath)
      (b.propfind (webdavUrl prov ++ p.fullPath)) [204, 207] Err.metadataError t
    with ⟨r, t1⟩
  rw [hmk] at hreq
  unfold metadata_folder
  rw [hmk]
  rcases r with e | resp
  · simpa using hreq
  · by_cases h207 : resp.status = 207
    · simp only [if_pos h207]
      rcases hp : resp.parsed with _ | items
      · simpa using hreq
      · simpa [releaseResp] using hreq
    · simp only [if_neg h207]
      simpa [releaseResp] using hreq

/-- The final trace of `_metadata_file` extends the incoming trace's request
list with exactly the one PROPFIND it issues. -/
theorem metadata_file_requests (prov : NextcloudProvider) (b : Backend)
    (p : WaterButlerPath) (t : Trace) :
    (metadata_file prov b p t).2.requests =
      t.requests ++ [("PROPFIND", webdavUrl prov ++ p.fullPath)] := by
  have hreq := metadata_folder_requests prov b p false t
  rcases hmf : metadata_folder prov b p false t with ⟨r, t1⟩
  rw [hmf] at hreq
  simp only [metadata_file, hmf]
  rcases r with e | items
  · simpa using hreq
  · cases items <;> simpa using hreq

/-- The final trace of `metadata` extends the incoming trace's request list
with exactly the one PROPFIND it issues. -/
theorem metadata_requests (prov : NextcloudProvider) (b : Backend)
    (p : WaterButlerPath) (t : Trace) :
    (metadata prov b p t).2.requests =
      t.requests ++ [("PROPFIND", webdavUrl prov ++ p.fullPath)] := by
  by_cases hf : p.isFolder = true
  · have hreq := metadata_folder_requests prov b p true t
    rcases hmf : metadata_folder prov b p true t with ⟨r, t1⟩
    rw [hmf] at hreq
    simp only [metadata, hf, if_true, hmf]
    rcases r with e | items <;> simpa using hreq
  · have hreq := metadata_file_requests prov b p t
    rcases hmf : metadata_file prov b p t with ⟨r, t1⟩
    rw [hmf] at hreq
    simp only [metadata, hf, if_false, hmf]
    rcases r with e | item <;> simpa using hreq

/-- Claim C5 (amended): the `keep`-policy renaming runs only when the upload
path carries a pre-assigned identifier.  In that case, when an object already
exists at the destination name and some suffix in range is free, the
destination request is renamed by appending the smallest disambiguating
suffix not in use among the destination folder's children, the pre-assigned
identifier is stripped, and the PUT is issued against the renamed path.
(Without an identifier no renaming happens at all; see the
counterexample.) -/
theorem claim_C5_amended (prov : NextcloudProvider) (b : Backend)
    (streamSize : Nat) (p : WaterButlerPath)
    (hid : p.identifier.isSome = true)
    (hconf : p.name ∈ b.children p.parent.fullPath)
    (hfree : ∃ j, 1 ≤ j ∧ j < (b.children p.parent.fullPath).length + 2 ∧
      renameWith p.name j ∉ b.children p.parent.fullPath) :
    (uploadDestPath prov b p "keep").identifier = none
    ∧ (uploadDestPath prov b p "keep").name =
        renameWith p.name (keepSuffix p.name (b.children p.parent.fullPath))
    ∧ renameWith p.name (keepSuffix p.name (b.children p.parent.fullPath))
        ∉ b.children p.parent.fullPath
    ∧ (∀ j, 1 ≤ j → j < keepSuffix p.name (b.children p.parent.fullPath) →
        renameWith p.name j ∈ b.children p.parent.fullPath)
    ∧ (upload prov b streamSize p "keep" Trace.empty).2.requests.head? =
        some ("PUT",
          webdavUrl prov ++ (uploadDestPath prov b p "keep").fullPath) := by
  have hgl : p.parts.getLast?.isSome = true :=
    getLast_isSome_of_identifier p hid
  have hdest : uploadDestPath prov b p "keep" =
      (p.withName
        (renameWith p.name
          (keepSuffix p.name (b.children p.parent.fullPath)))).stripId := by
    unfold uploadDestPath handleNameConflictKeep
    rw [if_pos ⟨hid, rfl⟩, if_pos hconf]
  have hnames := stripId_withName p
    (renameWith p.name (keepSuffix p.name (b.children p.parent.fullPath))) hgl
  refine ⟨?_, ?_, ?_, ?_, ?_⟩
  · rw [hdest]
    exact hnames.2
  · rw [hdest]
    exact hnames.1
  · apply keepSearch_not_mem
    rcases hfree with ⟨j, hj1, hj2, hj3⟩
    exact ⟨j, hj1, by omega, hj3⟩
  · intro j hj1 hj2
    exact keepSearch_min p.name (b.children p.parent.fullPath) _ 1 j hj1 hj2
  · have hreq := makeRequest_requests "PUT"
      (webdavUrl prov ++ (uploadDestPath prov b p "keep").fullPath)
      { status := b.putStatus
          (webdavUrl prov ++ (uploadDestPath prov b p "keep").fullPath)
      , parsed := some [] }
      [201, 204] Err.uploadError Trace.empty
    rcases hmk : makeRequest "PUT"
        (webdavUrl prov ++ (uploadDestPath prov b p "keep").fullPath)
        { status := b.putStatus
            (webdavUrl prov ++ (uploadDestPath prov b p "keep").fullPath)
        , parsed := some [] }
        [201, 204] Err.uploadError Trace.empty with ⟨r, t1⟩
    rw [hmk] at hreq
    simp only [Trace.empty, List.nil_append] at hreq
    unfold upload
    dsimp only
    rw [hmk]
    rcases r with e | resp
    · simp [hreq]
    · have hmr := metadata_requests prov b (uploadDestPath prov b p "keep")
        (releaseResp t1)
      rcases hmd : metadata prov b (uploadDestPath prov b p "keep")
          (releaseResp t1) with ⟨r2, t3⟩
      rw [hmd] at hmr
      dsimp only
      rw [hmd]
      rcases r2 with e | m <;> simp_all [releaseResp]

/-- Witness for the amended claim C5: a path carrying identifier `42` whose
name `b.txt` collides; `b (1).txt` is also taken, so the smallest free
suffix is 2 and the upload PUTs `b (2).txt` with the identifier stripped. -/
theorem claim_C5_amended_witness :
    (uploadDestPath provA bC5w pathC5w "keep").identifier = none
    ∧ (uploadDestPath provA bC5w pathC5w "keep").name =
        renameWith pathC5w.name
          (keepSuffix pathC5w.name (bC5w.children pathC5w.parent.fullPath))
    ∧ renameWith pathC5w.name
        (keepSuffix pathC5w.name (bC5w.children pathC5w.parent.fullPath))
        ∉ bC5w.children pathC5w.parent.fullPath
    ∧ (∀ j, 1 ≤ j →
        j < keepSuffix pathC5w.name (bC5w.children pathC5w.parent.fullPath) →
        renameWith pathC5w.name j ∈ bC5w.children pathC5w.parent.fullPath)
    ∧ (upload provA bC5w 10 pathC5w "keep" Trace.empty).2.requests.head? =
        some ("PUT",
          webdavUrl provA ++ (uploadDestPath provA bC5w pathC5w "keep").fullPath) :=
  claim_C5_amended provA bC5w 10 pathC5w (by decide) (by decide)
    ⟨2, by decide, by decide, by decide⟩

/-- The head of a filtered list is its first match. -/
theorem head?_filter_eq_find? {α : Type} (f : α → Bool) :
    ∀ l : List α, (l.filter f).head? = l.find? f := by
  intro l
  induction l with
  | nil => rfl
  | cons a l ih =>
    by_cases h : f a = true
    · simp [List.filter_cons, List.find?_cons, h]
    · simp [List.filter_cons, List.find?_cons, h, ih]

/-- Selecting by materialized path commutes with any reassignment of backend
identifiers: the selection never looks at `fileid`. -/
theorem find?_fileid_map (dest : String) (g : String → String) :
    ∀ l : List DavItem,
      List.find? (fun m => decide (m.materialized = dest))
          (l.map (fun m => { m with fileid := g m.fileid })) =
        Option.map (fun m => { m with fileid := g m.fileid })
          (List.find? (fun m => decide (m.materialized = dest)) l) := by
  intro l
  induction l with
  | nil => rfl
  | cons a l ih =>
    by_cases h : a.materialized = dest
    · simp [List.find?_cons, h]
    · simp [List.find?_cons, h, ih]

/-- When `_metadata_folder` succeeds, its value is exactly the pure
`folderListing` read off the backend oracle. -/
theorem metadata_folder_ok (prov : NextcloudProvider) (b : Backend)
    (p : WaterButlerPath) (skipFirst : Bool) (t : Trace)
    (l : List DavItem) (t1 : Trace)
    (h : metadata_folder prov b p skipFirst t = (Except.ok l, t1)) :
    l = folderListing prov b p skipFirst := by
  unfold metadata_folder at h
  unfold folderListing
  rcases hmk : makeRequest "PROPFIND" (webdavUrl prov ++ p.fullPath)
      (b.propfind (webdavUrl prov ++ p.fullPath)) [204, 207] Err.metadataError t
    with ⟨r, t2⟩
  rw [hmk] at h
  have hr : r = Except.error Err.metadataError ∨
      r = Except.ok (b.propfind (webdavUrl prov ++ p.fullPath)) := by
    unfold makeRequest at hmk
    split at hmk
    · exact Or.inr (congrArg Prod.fst hmk).symm
    · exact Or.inl (congrArg Prod.fst hmk).symm
  rcases hr with hr | hr <;> subst hr
  · simp at h
  · dsimp only at h ⊢
    by_cases h207 : (b.propfind (webdavUrl prov ++ p.fullPath)).status = 207
    · rw [if_pos h207] at h
      rw [if_pos h207]
      rcases hp : (b.propfind (webdavUrl prov ++ p.fullPath)).parsed with _ | items
      · rw [hp] at h
        simp at h
      · rw [hp] at h
        dsimp only
        simp only [List.drop_one]
        simp at h
        exact h.1.symm
    · rw [if_neg h207] at h
      rw [if_neg h207]
      simp at h
      exact h.1

/-- For a folder path, a successful `metadata` returns the listing of the
pure `folderListing`. -/
theorem metadata_ok_folder (prov : NextcloudProvider) (b : Backend)
    (p : WaterButlerPath) (t : Trace) (m : Meta) (t1 : Trace)
    (hf : p.isFolder = true)
    (h : metadata prov b p t = (Except.ok m, t1)) :
    m = Meta.many (folderListing prov b p true) := by
  unfold metadata at h
  rw [hf] at h
  simp only [if_true] at h
  rcases hmf : metadata_folder prov b p true t with ⟨r, t2⟩
  rw [hmf] at h
  rcases r with e | items
  · simp at h
  · simp at h
    rw [h.1.symm, metadata_folder_ok prov b p true t items t2 hmf]

/-- Claim C7: a successful intra copy or move whose destination is a folder
returns the child entry of the re-fetched destination parent listing selected
as the first entry whose materialized path equals the destination's
materialized path — a selection that commutes with any reassignment of
backend identifiers, i.e. it never compares `fileid`. -/
theorem claim_C7 (prov : NextcloudProvider) (b : Backend)
    (src dest : WaterButlerPath) (op : String) (t : Trace)
    (hfolder : dest.isFolder = true)
    (out : MCOut) (flag : Bool) (t4 : Trace)
    (hrun : do_dav_move_copy prov b src dest op t = (Except.ok (out, flag), t4)) :
    (∃ chosen children,
      out = MCOut.folder chosen children
      ∧ List.find? (fun m => decide (m.materialized = dest.materializedPath))
          (folderListing prov b dest.parent true) = some chosen)
    ∧ (∀ g : String → String,
      List.find? (fun m => decide (m.materialized = dest.materializedPath))
          ((folderListing prov b dest.parent true).map
            (fun m => { m with fileid := g m.fileid })) =
        Option.map (fun m => { m with fileid := g m.fileid })
          (List.find? (fun m => decide (m.materialized = dest.materializedPath))
            (folderListing prov b dest.parent true))) := by
  refine ⟨?_, fun g => find?_fileid_map dest.materializedPath g _⟩
  unfold do_dav_move_copy at hrun
  split at hrun
  · simp at hrun
  · rcases hmk : makeRequest op (webdavUrl prov ++ src.fullPath)
        { status := b.moveCopyStatus op src.fullPath dest.fullPath
        , parsed := some [] }
        [201, 204] Err.intraCopyError t with ⟨r, t1⟩
    rw [hmk] at hrun
    rcases r with e | resp
    · simp at hrun
    · dsimp only at hrun
      rcases hmd : metadata prov b dest (releaseResp t1) with ⟨r2, t2⟩
      rw [hmd] at hrun
      rcases r2 with e | fileMeta
      · simp at hrun
      · dsimp only at hrun
        rcases hmp : metadata prov b dest.parent t2 with ⟨r3, t3⟩
        rw [hmp] at hrun
        rcases r3 with e | pm
        · simp at hrun
        · have hpm : pm = Meta.many (folderListing prov b dest.parent true) :=
            metadata_ok_folder prov b dest.parent t2 pm t3 rfl hmp
          subst hpm
          dsimp only at hrun
          rcases hhd : (List.filter
              (fun m => decide (m.materialized = dest.materializedPath))
              (folderListing prov b dest.parent true)).head? with _ | chosen
          · rw [hhd] at hrun
            simp at hrun
          · rw [hhd] at hrun
            simp at hrun
            refine ⟨chosen, fileMeta, hrun.1.1.symm, ?_⟩
            rw [← head?_filter_eq_find?]
            exact hhd

/-- Witness for claim C7: a concrete successful intra COPY into the folder
`/d/`; the returned entry is the parent listing's child with materialized
path `/d/`, carrying the freshly assigned identifier `new99`. -/
theorem claim_C7_witness :
    (∃ chosen children,
      MCOut.folder chosenC7 (Meta.many [childC7]) = MCOut.folder chosen children
      ∧ List.find?
          (fun m => decide (m.materialized = destC7.materializedPath))
          (folderListing provA bC7 destC7.parent true) = some chosen)
    ∧ (∀ g : String → String,
      List.find? (fun m => decide (m.materialized = destC7.materializedPath))
          ((folderListing provA bC7 destC7.parent true).map
            (fun m => { m with fileid := g m.fileid })) =
        Option.map (fun m => { m with fileid := g m.fileid })
          (List.find? (fun m => decide (m.materialized = destC7.materializedPath))
            (folderListing provA bC7 destC7.parent true))) :=
  claim_C7 provA bC7 srcC7 destC7 "COPY" Trace.empty rfl
    (MCOut.folder chosenC7 (Meta.many [childC7])) true
    (do_dav_move_copy provA bC7 srcC7 destC7 "COPY" Trace.empty).2 (by rfl)

end WB
